import Mathlib

/-!
# vobiz-openai: the WebSocket smoke-test script (`src/1.js`)

A shallow embedding of the script and of the part of its environment it talks to:

* `JSON`, `JSON.stringify`: the three object literals the script serialises;
* `wsUrl`: the address handed to `new WebSocket(...)`;
* `State`, `Timer`, `Callback`: the event loop seen by the script, with ideal timers
  (a timer fires exactly at its due time, the clock is in virtual milliseconds);
* `onOpen`, `message`, `error`, `close`: the four handlers registered with `ws.on`
  (`onOpen` is the function `open` of the script, whose name is a keyword here);
* `runCallback`: the bodies of the four arrow functions handed to `setTimeout` / `setInterval`;
* `step`, `run`: the event loop delivering socket events and firing timers.

Every call the script makes on the socket or on the timer API is appended, with the
clock value, to `State.log`; every console call is appended to `State.console`.
-/

namespace VobizTest

/-! ## JSON values and `JSON.stringify` -/

/-- The JSON values the script builds: strings and objects with ordered fields. -/
inductive JSON where
  | str (s : String)
  | obj (fields : List (String × JSON))
deriving Repr

/-- Four hexadecimal digits, as used in a `\uXXXX` escape. -/
def hex4 (n : Nat) : String :=
  String.mk ((List.range 4).reverse.map
    (fun i => (Nat.toDigits 16 ((n / 16 ^ i) % 16)).headD (Char.ofNat 48)))

/-- The escape `JSON.stringify` writes for one character of a string. -/
def quoteChar (c : Char) : String :=
  if c = Char.ofNat 34 then String.mk [Char.ofNat 92, Char.ofNat 34]
  else if c = Char.ofNat 92 then String.mk [Char.ofNat 92, Char.ofNat 92]
  else if c = Char.ofNat 8 then String.mk [Char.ofNat 92, Char.ofNat 98]
  else if c = Char.ofNat 12 then String.mk [Char.ofNat 92, Char.ofNat 102]
  else if c = Char.ofNat 10 then String.mk [Char.ofNat 92, Char.ofNat 110]
  else if c = Char.ofNat 13 then String.mk [Char.ofNat 92, Char.ofNat 114]
  else if c = Char.ofNat 9 then String.mk [Char.ofNat 92, Char.ofNat 116]
  else if c.toNat < 32 then String.mk [Char.ofNat 92, Char.ofNat 117] ++ hex4 c.toNat
  else String.singleton c

/-- A string between double quotes, escaped as `JSON.stringify` does. -/
def quote (s : String) : String :=
  String.singleton (Char.ofNat 34) ++ String.join (s.toList.map quoteChar)
    ++ String.singleton (Char.ofNat 34)

mutual
/-- The function `JSON.stringify` (no indentation argument) on strings and objects. -/
def JSON.stringify : JSON → String
  | .str s => quote s
  | .obj fields =>
    String.singleton (Char.ofNat 123) ++ String.intercalate "," (JSON.stringifyFields fields)
      ++ String.singleton (Char.ofNat 125)
/-- The `"key":value` members of an object, in insertion order. -/
def JSON.stringifyFields : List (String × JSON) → List String
  | [] => []
  | (k, v) :: rest => (quote k ++ ":" ++ JSON.stringify v) :: JSON.stringifyFields rest
end

/-- The field names of an object, in order (`Object.keys`); `none` for a string. -/
def JSON.keys : JSON → Option (List String)
  | .str _ => none
  | .obj fields => some (fields.map Prod.fst)

/-- Property access `v[k]`: the first field named `k` of an object. -/
def JSON.get? : JSON → String → Option JSON
  | .str _, _ => none
  | .obj fields, k => (fields.find? (fun kv => kv.1 == k)).map Prod.snd

/-- The string held by a JSON string value; `none` for an object. -/
def JSON.asString? : JSON → Option String
  | .str s => some s
  | .obj _ => none

/-! ## The literals of the script -/

/-- The address given to `new WebSocket(...)` (line 4). -/
def wsUrl : String :=
  "ws://localhost:8080/stream?calluuid=test-123&from=918504074217&to=08071387304"

/-- The object `startEvent` (lines 11-18). -/
def startEvent : JSON :=
  .obj [("event", .str "start"),
        ("start", .obj [("callId", .str "test-call-123"),
                        ("streamId", .str "test-stream-456"),
                        ("accountId", .str "test-account-789")])]

/-- The string literal under `payload` (line 34). -/
def mediaPayload : String :=
  "//79/f3+/v8A/wD/AP8A/wD/AP8A/wD/AP8A/wD/AP8A/wD/AP8A/wD/AP8A/wD/AP8A/wD/AP8A/wD/AP8A/wD/AP8A/wD/AP8A/wD/AP8A/wD/AP8A/wD/AP8A/wD/AP8A/wD/AP8A/wD/AP8A/wD/AP8A/wD/AP8A/wD/AP8A/wD/AP8A/wD/AP8A/wD/AP8A/wD/AP8A/wD/AP8A/wD/AP8A/wD/AP8A/wD/AP8A/wD/AP8A/wD/AP8A/wD/AP8A/wD/AP8A/wD/AP8A/wD/AP8A/wD/AP8A/wD/AP8A/wD/AP8A/wD/AP8A/wD/AP8A/wD/AP8A/wD/AP8A/wD/AP8A/wD/AP8A/wD/AP8A/wD/AP8A/wD/AP8A/wD/AP8A/wD/AP8A/wD/AP8A/wD/AP8A/wD/AP8A"

/-- The object `mediaEvent` (lines 30-36). -/
def mediaEvent : JSON :=
  .obj [("event", .str "media"), ("media", .obj [("payload", .str mediaPayload)])]

/-- The object literal of line 47. -/
def stopEvent : JSON :=
  .obj [("event", .str "stop")]

/-- The string sent at line 21. -/
def startMessage : String := JSON.stringify startEvent

/-- The string sent at line 38. -/
def mediaMessage : String := JSON.stringify mediaEvent

/-- The string sent at line 47. -/
def stopMessage : String := JSON.stringify stopEvent

/-! ## Reading an address: path and query parameters -/

/-- The characters before the first `sep`, and those after it when there is one. -/
def cutAt (sep : Char) : List Char → List Char × Option (List Char)
  | [] => ([], none)
  | c :: cs =>
    if c = sep then ([], some cs)
    else let r := cutAt sep cs; (c :: r.1, r.2)

/-- The pieces of a list of characters between the occurrences of `sep`. -/
def splitAll (sep : Char) : List Char → List (List Char)
  | [] => [[]]
  | c :: cs =>
    if c = sep then [] :: splitAll sep cs
    else match splitAll sep cs with
      | [] => [[c]]
      | p :: ps => (c :: p) :: ps

/-- The parts of an address `scheme://host/path?query`. -/
structure Url where
  scheme : String
  host : String
  path : String
  query : List (String × String)
deriving DecidableEq, Repr

/-- One `name=value` pair of a query string. -/
def parseParam (p : List Char) : String × String :=
  let r := cutAt (Char.ofNat 61) p
  (String.mk r.1, String.mk (r.2.getD []))

/-- The query parameters, in order, of the text after `?`. -/
def parseQuery (q : List Char) : List (String × String) :=
  ((splitAll (Char.ofNat 38) q).filter (fun p => !p.isEmpty)).map parseParam

/-- Splits an address into scheme, host, path and query parameters the way the URL
parser used by the `ws` constructor does for an address without fragment or credentials. -/
def parseUrl (s : String) : Option Url :=
  let r := cutAt (Char.ofNat 58) s.toList
  match r.2 with
  | some (a :: b :: rest) =>
    if a = Char.ofNat 47 ∧ b = Char.ofNat 47 then
      let pq := cutAt (Char.ofNat 63) rest
      let hp := cutAt (Char.ofNat 47) pq.1
      some { scheme := String.mk r.1
             host := String.mk hp.1
             path := String.mk (Char.ofNat 47 :: hp.2.getD [])
             query := parseQuery (pq.2.getD []) }
    else none
  | _ => none

/-! ## Base64 (RFC 4648, standard alphabet) -/

/-- The 64 characters of the standard base64 alphabet, in value order. -/
def base64Alphabet : List Char :=
  "ABCDEFGHIJKLMNOPQRSTUVWXYZabcdefghijklmnopqrstuvwxyz0123456789+/".toList

/-- The padding character `=`. -/
def base64Pad : Char := Char.ofNat 61

/-- The 6-bit value of a character of the alphabet. -/
def base64Value (c : Char) : Option Nat :=
  let i := base64Alphabet.indexOf c
  if i < 64 then some i else none

/-- Decodes quartets of characters to bytes; padding is accepted in the last quartet only. -/
def base64DecodeChars : List Char → Option (List Nat)
  | [] => some []
  | [a, b, c, d] =>
    match base64Value a, base64Value b with
    | some x, some y =>
      if c = base64Pad ∧ d = base64Pad then
        some [(x * 64 + y) / 16]
      else match base64Value c with
        | some z =>
          if d = base64Pad then
            some [(x * 4096 + y * 64 + z) / 1024, (x * 4096 + y * 64 + z) / 4 % 256]
          else match base64Value d with
            | some w =>
              let n := x * 262144 + y * 4096 + z * 64 + w
              some [n / 65536, n / 256 % 256, n % 256]
            | none => none
        | none => none
    | _, _ => none
  | a :: b :: c :: d :: rest =>
    match base64Value a, base64Value b, base64Value c, base64Value d,
          base64DecodeChars rest with
    | some x, some y, some z, some w, some bytes =>
      let n := x * 262144 + y * 4096 + z * 64 + w
      some (n / 65536 :: n / 256 % 256 :: n % 256 :: bytes)
    | _, _, _, _, _ => none
  | _ => none

/-- The bytes a base64 string stands for, `none` when it is not well formed. -/
def base64Decode (s : String) : Option (List Nat) :=
  base64DecodeChars s.toList

/-! ## The event loop seen by the script -/

/-- The arrow functions the script hands to the timer API. The interval callback closes
over the variable `count` (a cell of `State.counts`) and the constant `interval`. -/
inductive Callback where
  | mediaPhase
  | mediaTick (cell : Nat) (interval : Nat)
  | stopPhase
  | closePhase
deriving DecidableEq, Repr

/-- A pending timer: `period` is `some p` for a timer made by `setInterval`. -/
structure Timer where
  id : Nat
  due : Nat
  period : Option Nat
  callback : Callback
deriving DecidableEq, Repr

/-- The calls recorded in `State.log`: the socket API, the timer API, and the event loop
invoking the callback of a timer. -/
inductive Op where
  | connect (url : String)
  | send (data : String)
  | close
  | setTimeout (id : Nat) (delay : Nat) (cb : Callback)
  | setInterval (id : Nat) (delay : Nat) (cb : Callback)
  | clearInterval (id : Nat)
  | fire (id : Nat) (cb : Callback)
deriving DecidableEq, Repr

/-- A call on the console, with its arguments as text. -/
inductive ConsoleEntry where
  | log (args : List String)
  | error (args : List String)
deriving DecidableEq, Repr

/-- The state of the script and of its event loop. -/
structure State where
  now : Nat
  nextTimerId : Nat
  timers : List Timer
  counts : List Nat
  log : List (Nat × Op)
  console : List ConsoleEntry
deriving DecidableEq, Repr

/-- The call `console.log(...)`. -/
def consoleLog (args : List String) (s : State) : State :=
  { s with console := s.console ++ [ConsoleEntry.log args] }

/-- The call `console.error(...)`. -/
def consoleError (args : List String) (s : State) : State :=
  { s with console := s.console ++ [ConsoleEntry.error args] }

/-- The call `ws.send(data)`. -/
def wsSend (data : String) (s : State) : State :=
  { s with log := s.log ++ [(s.now, Op.send data)] }

/-- The call `ws.close()`. -/
def wsClose (s : State) : State :=
  { s with log := s.log ++ [(s.now, Op.close)] }

/-- The call `setTimeout(cb, delay)`: a one-shot timer due `delay` ms from now. -/
def setTimeout (cb : Callback) (delay : Nat) (s : State) : State :=
  { s with
    nextTimerId := s.nextTimerId + 1
    timers := s.timers ++ [{ id := s.nextTimerId, due := s.now + delay, period := none,
                             callback := cb }]
    log := s.log ++ [(s.now, Op.setTimeout s.nextTimerId delay cb)] }

/-- The call `setInterval(cb, delay)`: a repeating timer; the identifier it returns is
`s.nextTimerId`. -/
def setInterval (cb : Callback) (delay : Nat) (s : State) : State :=
  { s with
    nextTimerId := s.nextTimerId + 1
    timers := s.timers ++ [{ id := s.nextTimerId, due := s.now + delay, period := some delay,
                             callback := cb }]
    log := s.log ++ [(s.now, Op.setInterval s.nextTimerId delay cb)] }

/-- The call `clearInterval(id)`: the timer is no longer pending. -/
def clearInterval (id : Nat) (s : State) : State :=
  { s with
    timers := s.timers.filter (fun t => t.id != id)
    log := s.log ++ [(s.now, Op.clearInterval id)] }

/-- The function `open`, handler of the `open` event (lines 7-56): what it does before
it returns; the callbacks it schedules are in `runCallback`. -/
def onOpen (s : State) : State :=
  let s := consoleLog ["✅ Connected to WebSocket"] s
  let s := consoleLog ["📤 Sending START event"] s
  let s := wsSend (JSON.stringify startEvent) s
  setTimeout Callback.mediaPhase 1000 s

/-- The bodies of the timer callbacks: `mediaPhase` is the arrow function of line 24,
`mediaTick` that of line 29, `stopPhase` that of line 45, `closePhase` that of line 48. -/
def runCallback : Callback → State → State
  | .mediaPhase, s =>
    let s := consoleLog ["📤 Sending MEDIA events"] s
    let cell := s.counts.length
    let s := { s with counts := s.counts ++ [0] }
    setInterval (Callback.mediaTick cell s.nextTimerId) 20 s
  | .mediaTick cell interval, s =>
    let s := wsSend (JSON.stringify mediaEvent) s
    let s := { s with counts := s.counts.set cell (s.counts.getD cell 0 + 1) }
    if s.counts.getD cell 0 ≥ 100 then
      let s := clearInterval interval s
      setTimeout Callback.stopPhase 2000 s
    else s
  | .stopPhase, s =>
    let s := consoleLog ["📤 Sending STOP event"] s
    let s := wsSend (JSON.stringify stopEvent) s
    setTimeout Callback.closePhase 1000 s
  | .closePhase, s => wsClose s

/-- The function `message`, handler of the `message` event (lines 58-60); `data` is
`data.toString()`. -/
def message (data : String) (s : State) : State :=
  consoleLog ["📥 Received:", data] s

/-- The function `error`, handler of the `error` event (lines 62-64); `err` is the error
as printed. -/
def error (err : String) (s : State) : State :=
  consoleError ["❌ Error:", err] s

/-- The function `close`, handler of the `close` event (lines 66-68). -/
def close (code : Nat) (reason : String) (s : State) : State :=
  consoleLog ["🛑 Disconnected (code: " ++ toString code ++ ", reason: " ++ reason ++ ")"] s

/-- The pending timer that is due first; among timers due together, the one that has
been waiting longest. -/
def earliest : List Timer → Option Timer
  | [] => none
  | t :: ts =>
    match earliest ts with
    | none => some t
    | some u => if u.due < t.due then some u else some t

/-- One turn of the timer phase: the earliest timer fires at its due time. A repeating
timer is armed again one period later before its callback runs, so that the callback
can clear it. Nothing happens when no timer is pending. -/
def fireNext (s : State) : State :=
  match earliest s.timers with
  | none => s
  | some t =>
    let rest := s.timers.filter (fun u => u.id != t.id)
    let timers :=
      match t.period with
      | some p => rest ++ [{ t with due := t.due + p }]
      | none => rest
    runCallback t.callback
      { s with now := t.due, timers := timers,
               log := s.log ++ [(t.due, Op.fire t.id t.callback)] }

/-- What the event loop delivers to the script. -/
inductive Event where
  | open
  | message (data : String)
  | error (err : String)
  | close (code : Nat) (reason : String)
  | timer
deriving DecidableEq, Repr

/-- The script's reaction to one event. -/
def step (s : State) : Event → State
  | .open => onOpen s
  | .message data => message data s
  | .error err => error err s
  | .close code reason => close code reason s
  | .timer => fireNext s

/-- The script's reaction to a sequence of events. -/
def run (s : State) (evs : List Event) : State :=
  evs.foldl step s

/-- The state once the top level of the script has run (lines 1-68): the socket has
been asked to connect, the four handlers are registered, no timer is pending. -/
def init : State :=
  { now := 0, nextTimerId := 0, timers := [], counts := [],
    log := [(0, Op.connect wsUrl)], console := [] }

/-- Whether a logged call is a call on the socket after the connection request
(`ws.send` or `ws.close`). -/
def Op.isSocketCall : Op → Bool
  | Op.send _ => true
  | Op.close => true
  | _ => false

/-- The argument of a logged `ws.send`. -/
def Op.sentData? : Op → Option String
  | Op.send d => some d
  | _ => none

/-- The calls made on the socket after the connection request, with their times. -/
def socketCalls (s : State) : List (Nat × Op) :=
  s.log.filter (fun e => e.2.isSocketCall)

/-- The strings passed to `ws.send`, in order. -/
def sent (s : State) : List String :=
  s.log.filterMap (fun e => e.2.sentData?)

/-- The number of MEDIA messages sent so far. -/
def mediaSent (s : State) : Nat :=
  (sent s).count mediaMessage

/-- The run in which the socket opens and the timer phase then takes `n` turns. -/
def openThenTimers (n : Nat) : List Event :=
  Event.open :: List.replicate n Event.timer

/-- A run in which the server also speaks and closes: a message, the `open` event,
103 timer turns, then the `close` event. -/
def chattyRun : List Event :=
  Event.message "hello" :: Event.open ::
    (List.replicate 103 Event.timer ++ [Event.close 1000 "bye"])

/-- Whether an event is a `message` event. -/
def Event.isMessage : Event → Bool
  | Event.message _ => true
  | _ => false

/-- Whether a logged entry is the event loop invoking the callback of the repeating timer. -/
def Op.isIntervalRun : Op → Bool
  | Op.fire _ (Callback.mediaTick _ _) => true
  | _ => false

/-- Whether a logged entry is the `setTimeout` call that schedules STOP. -/
def Op.isStopSchedule : Op → Bool
  | Op.setTimeout _ _ Callback.stopPhase => true
  | _ => false

/-- Whether a logged entry is a `clearInterval` call. -/
def Op.isClear : Op → Bool
  | Op.clearInterval _ => true
  | _ => false

/-- Whether a logged entry is the event loop invoking the close timeout. -/
def Op.isCloseFire : Op → Bool
  | Op.fire _ Callback.closePhase => true
  | _ => false

/-- How many times the callback of the repeating timer has run. -/
def intervalRuns (s : State) : Nat :=
  s.log.countP (fun e => e.2.isIntervalRun)

/-- How many times the STOP timeout has been scheduled. -/
def stopSchedules (s : State) : Nat :=
  s.log.countP (fun e => e.2.isStopSchedule)

/-- How many times `clearInterval` has been called. -/
def clears (s : State) : Nat :=
  s.log.countP (fun e => e.2.isClear)

/-- Whether the close timeout has fired. -/
def closeFired (s : State) : Bool :=
  s.log.any (fun e => e.2.isCloseFire)

/-- Whether a repeating timer is pending. -/
def intervalPending (s : State) : Bool :=
  s.timers.any (fun t => t.period.isSome)

/-! ## The states of the run with one `open` event -/

/-- The state with the console output left out. -/
def State.core (s : State) : State :=
  { s with console := [] }

/-- The log once the `open` handler has returned. -/
def baseLog : List (Nat × Op) :=
  [(0, Op.connect wsUrl), (0, Op.send startMessage),
   (0, Op.setTimeout 0 1000 Callback.mediaPhase)]

/-- The log entries of the callback of line 24. -/
def intervalLog : List (Nat × Op) :=
  [(1000, Op.fire 0 Callback.mediaPhase),
   (1000, Op.setInterval 1 20 (Callback.mediaTick 0 1))]

/-- The log entries of the first `k` turns of the repeating timer. -/
def tickLog : Nat → List (Nat × Op)
  | 0 => []
  | k + 1 => tickLog k ++ [(1020 + 20 * k, Op.fire 1 (Callback.mediaTick 0 1)),
                           (1020 + 20 * k, Op.send mediaMessage)]

/-- The log entries that end the hundredth turn of the repeating timer. -/
def clearLog : List (Nat × Op) :=
  [(3000, Op.clearInterval 1), (3000, Op.setTimeout 2 2000 Callback.stopPhase)]

/-- The log entries of the callback of line 45. -/
def stopLog : List (Nat × Op) :=
  [(5000, Op.fire 2 Callback.stopPhase), (5000, Op.send stopMessage),
   (5000, Op.setTimeout 3 1000 Callback.closePhase)]

/-- The log entries of the callback of line 48. -/
def closeLog : List (Nat × Op) :=
  [(6000, Op.fire 3 Callback.closePhase), (6000, Op.close)]

/-- After `open`: the first timeout is pending. -/
def openedState : State :=
  { now := 0, nextTimerId := 1,
    timers := [{ id := 0, due := 1000, period := none, callback := Callback.mediaPhase }],
    counts := [], log := baseLog, console := [] }

/-- In the media phase, after `k` turns of the repeating timer (`k < 100`). -/
def mediaState (k : Nat) : State :=
  { now := 1000 + 20 * k, nextTimerId := 2,
    timers := [{ id := 1, due := 1020 + 20 * k, period := some 20,
                 callback := Callback.mediaTick 0 1 }],
    counts := [k], log := baseLog ++ intervalLog ++ tickLog k, console := [] }

/-- After the hundredth turn: the STOP timeout is pending. -/
def stopPending : State :=
  { now := 3000, nextTimerId := 3,
    timers := [{ id := 2, due := 5000, period := none, callback := Callback.stopPhase }],
    counts := [100], log := baseLog ++ intervalLog ++ tickLog 100 ++ clearLog, console := [] }

/-- After STOP: the close timeout is pending. -/
def closePending : State :=
  { now := 5000, nextTimerId := 4,
    timers := [{ id := 3, due := 6000, period := none, callback := Callback.closePhase }],
    counts := [100], log := baseLog ++ intervalLog ++ tickLog 100 ++ clearLog ++ stopLog,
    console := [] }

/-- After the close call: nothing is pending. -/
def doneState : State :=
  { now := 6000, nextTimerId := 4, timers := [], counts := [100],
    log := baseLog ++ intervalLog ++ tickLog 100 ++ clearLog ++ stopLog ++ closeLog,
    console := [] }

/-- The state, console apart, `n` timer turns after `open`. -/
def expected (n : Nat) : State :=
  if n = 0 then openedState
  else if n ≤ 100 then mediaState (n - 1)
  else if n = 101 then stopPending
  else if n = 102 then closePending
  else doneState

/-- The number of timer turns after the first `open` event of a run. -/
def turnsAfterOpen : List Event → Nat
  | [] => 0
  | Event.open :: rest => rest.count Event.timer
  | _ :: rest => turnsAfterOpen rest

/-- What holds of the counter, the repeating timer and the STOP timeout in a state. -/
def MediaInvariant (s : State) : Prop :=
  (∀ c ∈ s.counts, c = mediaSent s ∧ c ≤ 100 ∧ intervalRuns s = c)
  ∧ s.counts.length ≤ 1
  ∧ (intervalPending s = true ↔ ∃ c, s.counts = [c] ∧ c < 100)
  ∧ clears s = (if s.counts = [100] then 1 else 0)
  ∧ stopSchedules s = (if s.counts = [100] then 1 else 0)
  ∧ (s.timers = [] → mediaSent s = 100 ∧ intervalRuns s = 100 ∧ clears s = 1
      ∧ stopSchedules s = 1 ∧ closeFired s = true)
  ∧ (closeFired s = true → s.timers = [])

/-! ## Lemmas: the console does not influence the run -/

theorem core_runCallback (cb : Callback) (s : State) :
    (runCallback cb s).core = (runCallback cb s.core).core := by
  cases cb with
  | mediaTick cell interval =>
    simp only [runCallback, State.core, wsSend, clearInterval, setTimeout]
    split <;> rfl
  | _ => rfl

theorem core_fireNext (s : State) : (fireNext s).core = (fireNext s.core).core := by
  unfold fireNext
  have h : s.core.timers = s.timers := rfl
  rw [h]
  cases earliest s.timers with
  | none => rfl
  | some t => exact core_runCallback _ _

theorem core_step (s : State) (e : Event) : (step s e).core = (step s.core e).core := by
  cases e with
  | timer => exact core_fireNext s
  | _ => rfl

theorem core_step_congr {s₁ s₂ : State} (h : s₁.core = s₂.core) (e : Event) :
    (step s₁ e).core = (step s₂ e).core := by
  rw [core_step s₁, core_step s₂, h]

theorem core_run_congr (evs : List Event) : ∀ {s₁ s₂ : State}, s₁.core = s₂.core →
    (run s₁ evs).core = (run s₂ evs).core := by
  induction evs with
  | nil => intro s₁ s₂ h; exact h
  | cons e rest ih => intro s₁ s₂ h; exact ih (core_step_congr h e)

theorem stringify_startEvent : JSON.stringify startEvent = startMessage := rfl

theorem stringify_mediaEvent : JSON.stringify mediaEvent = mediaMessage := rfl

theorem stringify_stopEvent : JSON.stringify stopEvent = stopMessage := rfl

theorem tickLog_succ (k : Nat) :
    tickLog (k + 1) = tickLog k ++ [(1020 + 20 * k, Op.fire 1 (Callback.mediaTick 0 1)),
                                    (1020 + 20 * k, Op.send mediaMessage)] := rfl

theorem fireNext_opened : (fireNext openedState).core = mediaState 0 := by
  simp [fireNext, openedState, earliest, runCallback, consoleLog, setInterval, State.core,
    mediaState, tickLog, intervalLog]

theorem fireNext_media (k : Nat) (hk : k < 99) :
    (fireNext (mediaState k)).core = mediaState (k + 1) := by
  have h : ¬ (100 ≤ k + 1) := by omega
  simp [fireNext, mediaState, earliest, runCallback, wsSend, State.core, tickLog_succ, h,
    stringify_mediaEvent]
  omega

theorem fireNext_media_last : (fireNext (mediaState 99)).core = stopPending := by
  have h : tickLog 100 = _ := tickLog_succ 99
  simp [fireNext, mediaState, earliest, runCallback, wsSend, State.core, h,
    stringify_mediaEvent, clearInterval, setTimeout, stopPending, clearLog]

theorem fireNext_stopPending : (fireNext stopPending).core = closePending := by
  simp [fireNext, stopPending, earliest, runCallback, wsSend, State.core, consoleLog,
    stringify_stopEvent, setTimeout, closePending, stopLog]

theorem fireNext_closePending : (fireNext closePending).core = doneState := by
  simp [fireNext, closePending, earliest, runCallback, wsClose, State.core, doneState, closeLog]

theorem fireNext_done : fireNext doneState = doneState := by
  simp [fireNext, doneState, earliest]

theorem expected_succ (n : Nat) : (fireNext (expected n)).core = expected (n + 1) := by
  unfold expected
  by_cases h0 : n = 0
  · subst h0; simpa using fireNext_opened
  by_cases h1 : n ≤ 99
  · obtain ⟨k, rfl⟩ : ∃ k, n = k + 1 := ⟨n - 1, by omega⟩
    have hk : k < 99 := by omega
    have h2 : k + 1 ≤ 100 := by omega
    have h3 : k + 1 + 1 ≤ 100 := by omega
    simpa [h2, h3] using fireNext_media k hk
  by_cases h2 : n = 100
  · subst h2; simpa using fireNext_media_last
  by_cases h3 : n = 101
  · subst h3; simpa using fireNext_stopPending
  by_cases h4 : n = 102
  · subst h4; simpa using fireNext_closePending
  have e1 : ¬ (n ≤ 100) := by omega
  have e2 : ¬ (n + 1 ≤ 100) := by omega
  have e3 : ¬ (n + 1 = 101) := by omega
  have e4 : ¬ (n + 1 = 102) := by omega
  simp only [h0, e1, h3, h4, e2, e3, e4, if_false, Nat.succ_ne_zero, fireNext_done]
  rfl

theorem core_onOpen_init {s : State} (h : s.core = init.core) :
    (onOpen s).core = expected 0 := by
  have h1 : (onOpen s).core = (onOpen s.core).core := core_step s Event.open
  rw [h1, h]
  simp [onOpen, init, State.core, consoleLog, wsSend, setTimeout, expected, openedState,
    baseLog, stringify_startEvent]

theorem core_fireNext_init {s : State} (h : s.core = init.core) :
    (fireNext s).core = init.core := by
  rw [core_fireNext, h]
  rfl

theorem core_socketEvent (s : State) (e : Event) (ho : e ≠ Event.open) (ht : e ≠ Event.timer) :
    (step s e).core = s.core := by
  cases e <;> first | exact absurd rfl ho | exact absurd rfl ht | rfl

theorem run_cons (s : State) (e : Event) (evs : List Event) :
    run s (e :: evs) = run (step s e) evs := rfl

theorem core_run_noOpen (evs : List Event) : ∀ (s : State) (n : Nat), s.core = expected n →
    evs.count Event.open = 0 → (run s evs).core = expected (n + evs.count Event.timer) := by
  induction evs with
  | nil => intro s n h _; simpa [run] using h
  | cons e rest ih =>
    intro s n h hc
    rw [run_cons]
    by_cases ho : e = Event.open
    · subst ho; simp at hc
    have hc2 : rest.count Event.open = 0 := by
      rw [List.count_cons] at hc; omega
    by_cases ht : e = Event.timer
    · subst ht
      have h1 : (step s Event.timer).core = expected (n + 1) := by
        show (fireNext s).core = _
        rw [core_fireNext, h]
        exact expected_succ n
      have := ih _ _ h1 hc2
      rw [this, List.count_cons]
      simp
      congr 1; omega
    · have h1 : (step s e).core = expected n := by rw [core_socketEvent s e ho ht, h]
      have := ih _ _ h1 hc2
      rw [this, List.count_cons]
      simp [ht]

theorem core_run_oneOpen (evs : List Event) : ∀ (s : State), s.core = init.core →
    evs.count Event.open = 1 → (run s evs).core = expected (turnsAfterOpen evs) := by
  induction evs with
  | nil => intro s _ hc; simp at hc
  | cons e rest ih =>
    intro s h hc
    rw [run_cons]
    by_cases ho : e = Event.open
    · subst ho
      have hc2 : rest.count Event.open = 0 := by
        rw [List.count_cons] at hc; simpa using hc
      have := core_run_noOpen rest _ 0 (core_onOpen_init h) hc2
      simpa [turnsAfterOpen] using this
    have hc2 : rest.count Event.open = 1 := by
      rw [List.count_cons] at hc; simpa [ho] using hc
    by_cases ht : e = Event.timer
    · subst ht; simpa [turnsAfterOpen] using ih _ (core_fireNext_init h) hc2
    · have := ih _ (show (step s e).core = init.core by rw [core_socketEvent s e ho ht, h]) hc2
      cases e <;> first | exact absurd rfl ho | exact absurd rfl ht | simpa [turnsAfterOpen] using this

theorem expected_timers_nil {n : Nat} (h : (expected n).timers = []) : expected n = doneState := by
  unfold expected at h ⊢
  by_cases h0 : n = 0
  · simp [h0, openedState] at h
  by_cases h1 : n ≤ 100
  · simp [h0, h1, mediaState] at h
  by_cases h2 : n = 101
  · simp [h2, stopPending] at h
  by_cases h3 : n = 102
  · simp [h3, closePending] at h
  simp [h0, h1, h2, h3]

theorem core_timers (s : State) : s.core.timers = s.timers := rfl

theorem core_log (s : State) : s.core.log = s.log := rfl

theorem core_counts (s : State) : s.core.counts = s.counts := rfl

theorem core_now (s : State) : s.core.now = s.now := rfl

/-- A run with one `open` event in which every timer has fired ends, console apart,
in `doneState`. -/
theorem core_run_complete (evs : List Event) (h1 : evs.count Event.open = 1)
    (h2 : (run init evs).timers = []) : (run init evs).core = doneState := by
  have h := core_run_oneOpen evs init rfl h1
  rw [h]
  apply expected_timers_nil
  rw [← h, core_timers, h2]

/-! ## Lemmas: what the log of the run holds -/

set_option maxRecDepth 100000 in
theorem startMessage_ne_mediaMessage : startMessage ≠ mediaMessage := by decide

set_option maxRecDepth 100000 in
theorem stopMessage_ne_mediaMessage : stopMessage ≠ mediaMessage := by decide

theorem socketCalls_tickLog (k : Nat) :
    (tickLog k).filter (fun e => e.2.isSocketCall) =
      (List.range k).map (fun i => (1000 + 20 * (i + 1), Op.send mediaMessage)) := by
  induction k with
  | zero => rfl
  | succ k ih =>
    rw [tickLog_succ, List.filter_append, ih, List.range_succ, List.map_append]
    simp [Op.isSocketCall]
    omega

theorem sent_tickLog (k : Nat) :
    (tickLog k).filterMap (fun e => e.2.sentData?) = List.replicate k mediaMessage := by
  induction k with
  | zero => rfl
  | succ k ih =>
    rw [tickLog_succ, List.filterMap_append, ih, List.replicate_succ']
    simp [Op.sentData?]

theorem intervalRuns_tickLog (k : Nat) :
    (tickLog k).countP (fun e => e.2.isIntervalRun) = k := by
  induction k with
  | zero => rfl
  | succ k ih =>
    rw [tickLog_succ, List.countP_append, ih]
    simp [Op.isIntervalRun, List.countP_cons]

theorem stopSchedules_tickLog (k : Nat) :
    (tickLog k).countP (fun e => e.2.isStopSchedule) = 0 := by
  induction k with
  | zero => rfl
  | succ k ih =>
    rw [tickLog_succ, List.countP_append, ih]
    simp [Op.isStopSchedule, List.countP_cons]

theorem clears_tickLog (k : Nat) :
    (tickLog k).countP (fun e => e.2.isClear) = 0 := by
  induction k with
  | zero => rfl
  | succ k ih =>
    rw [tickLog_succ, List.countP_append, ih]
    simp [Op.isClear, List.countP_cons]

theorem closeFired_tickLog (k : Nat) :
    (tickLog k).any (fun e => e.2.isCloseFire) = false := by
  induction k with
  | zero => rfl
  | succ k ih =>
    rw [tickLog_succ, List.any_append, ih]
    simp [Op.isCloseFire]

theorem socketCalls_done :
    socketCalls doneState =
      (0, Op.send startMessage) ::
        ((List.range 100).map (fun i => (1000 + 20 * (i + 1), Op.send mediaMessage))
          ++ [(5000, Op.send stopMessage), (6000, Op.close)]) := by
  simp only [socketCalls, doneState, List.filter_append, socketCalls_tickLog]
  simp [baseLog, intervalLog, clearLog, stopLog, closeLog, Op.isSocketCall]

theorem sent_media (k : Nat) :
    sent (mediaState k) = startMessage :: List.replicate k mediaMessage := by
  simp only [sent, mediaState, List.filterMap_append, sent_tickLog]
  simp [baseLog, intervalLog, Op.sentData?]

theorem mediaSent_media (k : Nat) : mediaSent (mediaState k) = k := by
  simp [mediaSent, sent_media, List.count_cons, startMessage_ne_mediaMessage]


theorem inv_opened : MediaInvariant openedState := by
  simp [MediaInvariant, openedState, intervalPending, clears, stopSchedules, closeFired,
    baseLog, Op.isClear, Op.isStopSchedule, Op.isCloseFire, List.countP_cons]

theorem inv_media (k : Nat) (hk : k < 100) : MediaInvariant (mediaState k) := by
  have h1 : intervalRuns (mediaState k) = k := by
    simp only [intervalRuns, mediaState, List.countP_append, intervalRuns_tickLog]
    simp [baseLog, intervalLog, Op.isIntervalRun, List.countP_cons]
  have h2 : clears (mediaState k) = 0 := by
    simp only [clears, mediaState, List.countP_append, clears_tickLog]
    simp [baseLog, intervalLog, Op.isClear, List.countP_cons]
  have h3 : stopSchedules (mediaState k) = 0 := by
    simp only [stopSchedules, mediaState, List.countP_append, stopSchedules_tickLog]
    simp [baseLog, intervalLog, Op.isStopSchedule, List.countP_cons]
  have h4 : closeFired (mediaState k) = false := by
    simp only [closeFired, mediaState, List.any_append, closeFired_tickLog]
    simp [baseLog, intervalLog, Op.isCloseFire]
  have h5 : k ≠ 100 := by omega
  refine ⟨?_, ?_, ?_, ?_, ?_, ?_, ?_⟩
  · intro c hc
    have : c = k := by simpa [mediaState] using hc
    subst this
    exact ⟨(mediaSent_media c).symm, by omega, h1⟩
  · simp [mediaState]
  · simp [intervalPending, mediaState, hk]
  · rw [h2]; simp [mediaState, h5]
  · rw [h3]; simp [mediaState, h5]
  · intro h; simp [mediaState] at h
  · rw [h4]; intro h; simp at h


theorem inv_stopPending : MediaInvariant stopPending := by
  have h0 : mediaSent stopPending = 100 := by
    have hs : sent stopPending = [startMessage] ++ List.replicate 100 mediaMessage := by
      simp only [sent, stopPending, List.filterMap_append, sent_tickLog]
      simp [baseLog, intervalLog, clearLog, Op.sentData?]
    rw [mediaSent, hs, List.count_append, List.count_replicate_self]
    simp [List.count_cons, startMessage_ne_mediaMessage]
  have h1 : intervalRuns stopPending = 100 := by
    simp only [intervalRuns, stopPending, List.countP_append, intervalRuns_tickLog]
    simp [baseLog, intervalLog, clearLog, Op.isIntervalRun, List.countP_cons]
  have h2 : clears stopPending = 1 := by
    simp only [clears, stopPending, List.countP_append, clears_tickLog]
    simp [baseLog, intervalLog, clearLog, Op.isClear, List.countP_cons]
  have h3 : stopSchedules stopPending = 1 := by
    simp only [stopSchedules, stopPending, List.countP_append, stopSchedules_tickLog]
    simp [baseLog, intervalLog, clearLog, Op.isStopSchedule, List.countP_cons]
  have h4 : closeFired stopPending = false := by
    simp only [closeFired, stopPending, List.any_append, closeFired_tickLog]
    simp [baseLog, intervalLog, clearLog, Op.isCloseFire]
  refine ⟨?_, ?_, ?_, ?_, ?_, ?_, ?_⟩
  · intro c hc
    have : c = 100 := by simpa [stopPending] using hc
    subst this
    exact ⟨h0.symm, le_refl _, h1⟩
  · simp [stopPending]
  · simp [intervalPending, stopPending]
  · rw [h2]; simp [stopPending]
  · rw [h3]; simp [stopPending]
  · intro h; simp [stopPending] at h
  · rw [h4]; intro h; simp at h

theorem inv_closePending : MediaInvariant closePending := by
  have h0 : mediaSent closePending = 100 := by
    have hs : sent closePending
        = [startMessage] ++ List.replicate 100 mediaMessage ++ [stopMessage] := by
      simp only [sent, closePending, List.filterMap_append, sent_tickLog]
      simp [baseLog, intervalLog, clearLog, stopLog, Op.sentData?]
    rw [mediaSent, hs, List.count_append, List.count_append, List.count_replicate_self]
    simp [List.count_cons, startMessage_ne_mediaMessage, stopMessage_ne_mediaMessage]
  have h1 : intervalRuns closePending = 100 := by
    simp only [intervalRuns, closePending, List.countP_append, intervalRuns_tickLog]
    simp [baseLog, intervalLog, clearLog, stopLog, Op.isIntervalRun, List.countP_cons]
  have h2 : clears closePending = 1 := by
    simp only [clears, closePending, List.countP_append, clears_tickLog]
    simp [baseLog, intervalLog, clearLog, stopLog, Op.isClear, List.countP_cons]
  have h3 : stopSchedules closePending = 1 := by
    simp only [stopSchedules, closePending, List.countP_append, stopSchedules_tickLog]
    simp [baseLog, intervalLog, clearLog, stopLog, Op.isStopSchedule, List.countP_cons]
  have h4 : closeFired closePending = false := by
    simp only [closeFired, closePending, List.any_append, closeFired_tickLog]
    simp [baseLog, intervalLog, clearLog, stopLog, Op.isCloseFire]
  refine ⟨?_, ?_, ?_, ?_, ?_, ?_, ?_⟩
  · intro c hc
    have : c = 100 := by simpa [closePending] using hc
    subst this
    exact ⟨h0.symm, le_refl _, h1⟩
  · simp [closePending]
  · simp [intervalPending, closePending]
  · rw [h2]; simp [closePending]
  · rw [h3]; simp [closePending]
  · intro h; simp [closePending] at h
  · rw [h4]; intro h; simp at h

theorem mediaSent_done : mediaSent doneState = 100 := by
  have hs : sent doneState
      = [startMessage] ++ List.replicate 100 mediaMessage ++ [stopMessage] := by
    simp only [sent, doneState, List.filterMap_append, sent_tickLog]
    simp [baseLog, intervalLog, clearLog, stopLog, closeLog, Op.sentData?]
  rw [mediaSent, hs, List.count_append, List.count_append, List.count_replicate_self]
  simp [List.count_cons, startMessage_ne_mediaMessage, stopMessage_ne_mediaMessage]

theorem inv_done : MediaInvariant doneState := by
  have h1 : intervalRuns doneState = 100 := by
    simp only [intervalRuns, doneState, List.countP_append, intervalRuns_tickLog]
    simp [baseLog, intervalLog, clearLog, stopLog, closeLog, Op.isIntervalRun, List.countP_cons]
  have h2 : clears doneState = 1 := by
    simp only [clears, doneState, List.countP_append, clears_tickLog]
    simp [baseLog, intervalLog, clearLog, stopLog, closeLog, Op.isClear, List.countP_cons]
  have h3 : stopSchedules doneState = 1 := by
    simp only [stopSchedules, doneState, List.countP_append, stopSchedules_tickLog]
    simp [baseLog, intervalLog, clearLog, stopLog, closeLog, Op.isStopSchedule,
      List.countP_cons]
  have h4 : closeFired doneState = true := by
    simp only [closeFired, doneState, List.any_append, closeFired_tickLog]
    simp [baseLog, intervalLog, clearLog, stopLog, closeLog, Op.isCloseFire]
  refine ⟨?_, ?_, ?_, ?_, ?_, ?_, ?_⟩
  · intro c hc
    have : c = 100 := by simpa [doneState] using hc
    subst this
    exact ⟨mediaSent_done.symm, le_refl _, h1⟩
  · simp [doneState]
  · simp [intervalPending, doneState]
  · rw [h2]; simp [doneState]
  · rw [h3]; simp [doneState]
  · intro _; exact ⟨mediaSent_done, h1, h2, h3, h4⟩
  · intro _; simp [doneState]

theorem inv_expected (n : Nat) : MediaInvariant (expected n) := by
  unfold expected
  split
  · exact inv_opened
  split
  · exact inv_media _ (by omega)
  split
  · exact inv_stopPending
  split
  · exact inv_closePending
  exact inv_done

theorem inv_core (s : State) : MediaInvariant s.core ↔ MediaInvariant s := Iff.rfl

/-! ## Lemmas: what a run can send -/

theorem sent_consoleLog (a : List String) (s : State) : sent (consoleLog a s) = sent s := rfl

theorem sent_wsSend (d : String) (s : State) : sent (wsSend d s) = sent s ++ [d] := by
  simp [sent, wsSend, List.filterMap_append, Op.sentData?]

theorem sent_wsClose (s : State) : sent (wsClose s) = sent s := by
  simp [sent, wsClose, List.filterMap_append, Op.sentData?]

theorem sent_setTimeout (cb : Callback) (n : Nat) (s : State) :
    sent (setTimeout cb n s) = sent s := by
  simp [sent, setTimeout, List.filterMap_append, Op.sentData?]

theorem sent_setInterval (cb : Callback) (n : Nat) (s : State) :
    sent (setInterval cb n s) = sent s := by
  simp [sent, setInterval, List.filterMap_append, Op.sentData?]

theorem sent_clearInterval (n : Nat) (s : State) : sent (clearInterval n s) = sent s := by
  simp [sent, clearInterval, List.filterMap_append, Op.sentData?]

theorem sent_setCounts (c : List Nat) (s : State) : sent { s with counts := c } = sent s := rfl

theorem sent_runCallback (cb : Callback) (s : State) :
    sent (runCallback cb s) = sent s ∨ sent (runCallback cb s) = sent s ++ [mediaMessage]
      ∨ sent (runCallback cb s) = sent s ++ [stopMessage] := by
  cases cb with
  | mediaTick cell interval =>
    right; left
    simp only [runCallback]
    split
    · rw [sent_setTimeout, sent_clearInterval, sent_setCounts, sent_wsSend,
        stringify_mediaEvent]
    · rw [sent_setCounts, sent_wsSend, stringify_mediaEvent]
  | mediaPhase =>
    left
    simp only [runCallback]
    rw [sent_setInterval, sent_setCounts, sent_consoleLog]
  | stopPhase =>
    right; right
    simp only [runCallback]
    rw [sent_setTimeout, sent_wsSend, sent_consoleLog, stringify_stopEvent]
  | closePhase => left; exact sent_wsClose s

theorem sent_fire (s : State) (t : Nat) (l : List Timer) (id : Nat) (cb : Callback) :
    sent { s with now := t, timers := l, log := s.log ++ [(t, Op.fire id cb)] } = sent s := by
  simp [sent, List.filterMap_append, Op.sentData?]

theorem sent_step (s : State) (e : Event) :
    sent (step s e) = sent s ∨ sent (step s e) = sent s ++ [startMessage]
      ∨ sent (step s e) = sent s ++ [mediaMessage]
      ∨ sent (step s e) = sent s ++ [stopMessage] := by
  cases e with
  | timer =>
    simp only [step, fireNext]
    split
    · exact Or.inl rfl
    · rcases sent_runCallback _ _ with h | h | h
      · rw [h, sent_fire]; exact Or.inl rfl
      · rw [h, sent_fire]; exact Or.inr (Or.inr (Or.inl rfl))
      · rw [h, sent_fire]; exact Or.inr (Or.inr (Or.inr rfl))
  | message data => exact Or.inl rfl
  | error err => exact Or.inl rfl
  | close code reason => exact Or.inl rfl
  | _ =>
    right; left
    simp only [step, onOpen]
    rw [sent_setTimeout, sent_wsSend, sent_consoleLog, sent_consoleLog, stringify_startEvent]

theorem sent_run (evs : List Event) : ∀ (s : State) (d : String), d ∈ sent (run s evs) →
    d ∈ sent s ∨ d = startMessage ∨ d = mediaMessage ∨ d = stopMessage := by
  induction evs with
  | nil => intro s d h; exact Or.inl h
  | cons e rest ih =>
    intro s d h
    rcases ih _ d h with h1 | h1
    · rcases sent_step s e with h2 | h2 | h2 | h2 <;> rw [h2] at h1
      · exact Or.inl h1
      · rcases List.mem_append.1 h1 with h3 | h3
        · exact Or.inl h3
        · exact Or.inr (Or.inl (List.mem_singleton.1 h3))
      · rcases List.mem_append.1 h1 with h3 | h3
        · exact Or.inl h3
        · exact Or.inr (Or.inr (Or.inl (List.mem_singleton.1 h3)))
      · rcases List.mem_append.1 h1 with h3 | h3
        · exact Or.inl h3
        · exact Or.inr (Or.inr (Or.inr (List.mem_singleton.1 h3)))
    · exact Or.inr h1

theorem core_run_filter (evs : List Event) : ∀ (s : State),
    (run s (evs.filter (fun e => !e.isMessage))).core = (run s evs).core := by
  induction evs with
  | nil => intro s; rfl
  | cons e rest ih =>
    intro s
    cases e with
    | message data =>
      have h1 : (step s (Event.message data)).core = s.core := rfl
      have h2 : (Event.message data :: rest).filter (fun e => !e.isMessage)
          = rest.filter (fun e => !e.isMessage) := by
        rw [List.filter_cons]; simp [Event.isMessage]
      rw [h2, ih s, run_cons]
      exact core_run_congr rest h1.symm
    | _ =>
      rw [List.filter_cons]
      simpa [Event.isMessage, run_cons] using ih _

theorem core_openThenTimers (n : Nat) : (run init (openThenTimers n)).core = expected n := by
  have h := core_run_oneOpen (openThenTimers n) init rfl (by simp [openThenTimers, List.count_replicate])
  simpa [openThenTimers, turnsAfterOpen] using h

theorem socketCalls_core (s : State) : socketCalls s.core = socketCalls s := rfl

theorem mediaSent_core (s : State) : mediaSent s.core = mediaSent s := rfl

theorem map_snd_mediaCalls (k : Nat) :
    ((List.range k).map (fun i => (1000 + 20 * (i + 1), Op.send mediaMessage))).map Prod.snd
      = List.replicate k (Op.send mediaMessage) := by
  induction k with
  | zero => rfl
  | succ k ih => rw [List.range_succ, List.map_append, List.map_append, ih, List.replicate_succ']; rfl

/-! ## The claims -/

/-- C1: in every run in which the `open` event fires exactly once and every scheduled
timer has fired, the calls made on the socket are exactly one send of the START message,
then 100 sends of the MEDIA message, then one send of the STOP message, then one close;
there is no other send or close, and no MEDIA after STOP. -/
theorem open_handler_action_sequence (evs : List Event)
    (hopen : evs.count Event.open = 1) (hfired : (run init evs).timers = []) :
    (socketCalls (run init evs)).map Prod.snd =
      Op.send startMessage ::
        (List.replicate 100 (Op.send mediaMessage) ++ [Op.send stopMessage, Op.close]) := by
  have h := core_run_complete evs hopen hfired
  rw [← socketCalls_core, h, socketCalls_done, List.map_cons, List.map_append,
    map_snd_mediaCalls]
  rfl

set_option maxRecDepth 100000 in
theorem open_handler_action_sequence_witness :
    (openThenTimers 103).count Event.open = 1 ∧ (run init (openThenTimers 103)).timers = [] ∧
    (socketCalls (run init (openThenTimers 103))).map Prod.snd =
      Op.send startMessage ::
        (List.replicate 100 (Op.send mediaMessage) ++ [Op.send stopMessage, Op.close]) :=
  ⟨by decide, by decide, open_handler_action_sequence _ (by decide) (by decide)⟩

/-- C2 (the code against its comment "Send 20 media packets"): in the run where the socket
opens and every timer fires, 100 MEDIA messages are sent, not 20; after the twentieth
MEDIA message the repeating timer is still pending and has not been cleared. -/
theorem media_phase_sends_hundred :
    (run init (openThenTimers 103)).timers = []
    ∧ mediaSent (run init (openThenTimers 103)) = 100
    ∧ mediaSent (run init (openThenTimers 103)) ≠ 20
    ∧ mediaSent (run init (openThenTimers 21)) = 20
    ∧ intervalPending (run init (openThenTimers 21)) = true
    ∧ clears (run init (openThenTimers 21)) = 0 := by
  have h103 : (run init (openThenTimers 103)).core = doneState := core_openThenTimers 103
  have h21 : (run init (openThenTimers 21)).core = mediaState 20 := core_openThenTimers 21
  have i21 := inv_media 20 (by omega)
  rw [← h21] at i21
  have a : (run init (openThenTimers 103)).timers = [] := by
    rw [← core_timers, h103]; rfl
  have b : mediaSent (run init (openThenTimers 103)) = 100 := by
    rw [← mediaSent_core, h103]; exact mediaSent_done
  have c : mediaSent (run init (openThenTimers 21)) = 20 := by
    rw [← mediaSent_core, h21]; exact mediaSent_media 20
  have hc : (run init (openThenTimers 21)).counts = [20] := by
    rw [← core_counts, h21]; rfl
  refine ⟨a, b, by rw [b]; decide, c, ?_, ?_⟩
  · exact ((inv_core _).1 i21).2.2.1.2 ⟨20, hc, by decide⟩
  · have := ((inv_core _).1 i21).2.2.2.1
    rw [this, hc]; decide

/-- C3: the START message the `open` handler sends is the JSON serialization of an object
whose `event` field is the string `start` and whose `start` field is an object with
exactly the three string fields `callId`, `streamId`, `accountId`. -/
theorem start_message_shape (s : State) :
    (onOpen s).log = s.log ++ [(s.now, Op.send startMessage),
                               (s.now, Op.setTimeout s.nextTimerId 1000 Callback.mediaPhase)]
    ∧ startMessage = JSON.stringify startEvent
    ∧ startEvent.keys = some ["event", "start"]
    ∧ (startEvent.get? "event").bind JSON.asString? = some "start"
    ∧ (startEvent.get? "start").bind JSON.keys = some ["callId", "streamId", "accountId"]
    ∧ ((startEvent.get? "start").bind (fun o => o.get? "callId")).bind JSON.asString?
        = some "test-call-123"
    ∧ ((startEvent.get? "start").bind (fun o => o.get? "streamId")).bind JSON.asString?
        = some "test-stream-456"
    ∧ ((startEvent.get? "start").bind (fun o => o.get? "accountId")).bind JSON.asString?
        = some "test-account-789"
    ∧ startMessage = "\x7b\"event\":\"start\",\"start\":\x7b\"callId\":\"test-call-123\",\"streamId\":\"test-stream-456\",\"accountId\":\"test-account-789\"\x7d\x7d" := by
  refine ⟨?_, rfl, rfl, by decide, rfl, by decide, by decide, by decide, by decide⟩
  simp [onOpen, consoleLog, wsSend, setTimeout, stringify_startEvent]

set_option maxRecDepth 100000 in
/-- C4: every MEDIA message sent is the same string, the JSON serialization of an object
with `event` equal to `media` and a `media` object with the single field `payload`; the
payload has 420 characters, all in the standard base64 alphabet, no padding, a length
that is a multiple of 4, and decodes to exactly 315 bytes. -/
theorem media_payload_wellformed :
    mediaMessage = JSON.stringify mediaEvent
    ∧ mediaEvent.keys = some ["event", "media"]
    ∧ (mediaEvent.get? "event").bind JSON.asString? = some "media"
    ∧ (mediaEvent.get? "media").bind JSON.keys = some ["payload"]
    ∧ ((mediaEvent.get? "media").bind (fun o => o.get? "payload")).bind JSON.asString?
        = some mediaPayload
    ∧ mediaPayload.length = 420
    ∧ (∀ c ∈ mediaPayload.toList, c ∈ base64Alphabet)
    ∧ mediaPayload.length % 4 = 0
    ∧ base64Pad ∉ mediaPayload.toList
    ∧ (base64Decode mediaPayload).map List.length = some 315
    ∧ (∀ (s : State) (cell interval : Nat),
        sent (runCallback (Callback.mediaTick cell interval) s) = sent s ++ [mediaMessage])
    ∧ (∀ (evs : List Event), ∀ d ∈ sent (run init evs),
        d = startMessage ∨ d = mediaMessage ∨ d = stopMessage)
    ∧ mediaMessage ≠ startMessage ∧ mediaMessage ≠ stopMessage := by
  refine ⟨rfl, rfl, by decide, rfl, rfl, by decide, by decide, by decide, by decide,
    by decide, ?_, ?_, fun h => startMessage_ne_mediaMessage h.symm,
    fun h => stopMessage_ne_mediaMessage h.symm⟩
  · intro s cell interval
    simp only [runCallback]
    split
    · rw [sent_setTimeout, sent_clearInterval, sent_setCounts, sent_wsSend,
        stringify_mediaEvent]
    · rw [sent_setCounts, sent_wsSend, stringify_mediaEvent]
  · intro evs d hd
    rcases sent_run evs init d hd with h | h
    · simp [sent, init, Op.sentData?] at h
    · exact h

/-- C5: the STOP message is the JSON serialization of an object with the single field
`event` equal to `stop`; the callback that sends it does not close the socket but
schedules, 1000 ms later, a separate callback whose only action is the close call. -/
theorem stop_message_bare_marker (s : State) :
    stopMessage = JSON.stringify stopEvent
    ∧ stopEvent.keys = some ["event"]
    ∧ (stopEvent.get? "event").bind JSON.asString? = some "stop"
    ∧ stopMessage = "\x7b\"event\":\"stop\"\x7d"
    ∧ (runCallback Callback.stopPhase s).log = s.log ++
        [(s.now, Op.send stopMessage),
         (s.now, Op.setTimeout s.nextTimerId 1000 Callback.closePhase)]
    ∧ (runCallback Callback.stopPhase s).timers = s.timers ++
        [{ id := s.nextTimerId, due := s.now + 1000, period := none,
           callback := Callback.closePhase }]
    ∧ (runCallback Callback.closePhase s).log = s.log ++ [(s.now, Op.close)]
    ∧ (runCallback Callback.closePhase s).timers = s.timers := by
  refine ⟨rfl, rfl, by decide, by decide, ?_, ?_, rfl, rfl⟩
  · simp [runCallback, consoleLog, wsSend, setTimeout, stringify_stopEvent]
  · simp [runCallback, consoleLog, wsSend, setTimeout]

set_option maxRecDepth 100000 in
/-- C6: the script asks for a connection to an address whose path is `/stream` and whose
query string holds exactly the parameters `calluuid`, `from`, `to`, in that order, each
once and each with a non-empty value. -/
theorem url_path_and_query :
    init.log = [(0, Op.connect wsUrl)]
    ∧ (parseUrl wsUrl).map Url.path = some "/stream"
    ∧ (parseUrl wsUrl).map Url.query =
        some [("calluuid", "test-123"), ("from", "918504074217"), ("to", "08071387304")]
    ∧ (parseUrl wsUrl).map (fun u => u.query.map Prod.fst) = some ["calluuid", "from", "to"]
    ∧ (parseUrl wsUrl).map (fun u => (u.query.map Prod.fst).Nodup) = some True
    ∧ (parseUrl wsUrl).map (fun u => u.query.all (fun p => p.2 != "")) = some true := by
  refine ⟨rfl, by decide, by decide, by decide, ?_, by decide⟩
  have h : parseUrl wsUrl = some (Url.mk "ws" "localhost:8080" "/stream"
      [("calluuid", "test-123"), ("from", "918504074217"), ("to", "08071387304")]) := by
    decide
  rw [h]
  simp

/-- C7: with ideal timers and the `open` event at time 0, START is sent at time 0, the
k-th MEDIA message at time 1000 + 20 k for k from 1 to 100, STOP at time 5000 and close
is called at time 6000. -/
theorem ideal_timer_schedule (evs : List Event)
    (hopen : evs.count Event.open = 1) (hfired : (run init evs).timers = []) :
    socketCalls (run init evs) =
      (0, Op.send startMessage) ::
        ((List.range 100).map (fun i => (1000 + 20 * (i + 1), Op.send mediaMessage))
          ++ [(5000, Op.send stopMessage), (6000, Op.close)])
    ∧ (socketCalls (run init evs))[0]? = some (0, Op.send startMessage)
    ∧ (∀ k, 1 ≤ k → k ≤ 100 →
        (socketCalls (run init evs))[k]? = some (1000 + 20 * k, Op.send mediaMessage))
    ∧ (socketCalls (run init evs))[101]? = some (3000 + 2000, Op.send stopMessage)
    ∧ (socketCalls (run init evs))[102]? = some (5000 + 1000, Op.close)
    ∧ (socketCalls (run init evs)).length = 103 := by
  have h := core_run_complete evs hopen hfired
  have hs : socketCalls (run init evs) =
      (0, Op.send startMessage) ::
        ((List.range 100).map (fun i => (1000 + 20 * (i + 1), Op.send mediaMessage))
          ++ [(5000, Op.send stopMessage), (6000, Op.close)]) := by
    rw [← socketCalls_core, h]; exact socketCalls_done
  refine ⟨hs, ?_, ?_, ?_, ?_, ?_⟩
  · rw [hs]; rfl
  · intro k h1 h2
    obtain ⟨j, rfl⟩ : ∃ j, k = j + 1 := ⟨k - 1, by omega⟩
    have hj : j < 100 := by omega
    rw [hs, List.getElem?_cons_succ, List.getElem?_append_left (by simpa using hj)]
    simp [hj]
  · rw [hs, List.getElem?_cons_succ, List.getElem?_append_right (by simp)]
    simp
  · rw [hs, List.getElem?_cons_succ, List.getElem?_append_right (by simp)]
    simp
  · rw [hs]; simp

set_option maxRecDepth 100000 in
theorem ideal_timer_schedule_witness :
    chattyRun.count Event.open = 1 ∧ (run init chattyRun).timers = []
    ∧ (socketCalls (run init chattyRun))[1]? = some (1020, Op.send mediaMessage)
    ∧ (socketCalls (run init chattyRun))[100]? = some (3000, Op.send mediaMessage)
    ∧ (socketCalls (run init chattyRun))[101]? = some (5000, Op.send stopMessage)
    ∧ (socketCalls (run init chattyRun))[102]? = some (6000, Op.close) :=
  ⟨by decide, by decide,
    (ideal_timer_schedule chattyRun (by decide) (by decide)).2.2.1 1 (by decide) (by decide),
    (ideal_timer_schedule chattyRun (by decide) (by decide)).2.2.1 100 (by decide) (by decide),
    (ideal_timer_schedule chattyRun (by decide) (by decide)).2.2.2.1,
    (ideal_timer_schedule chattyRun (by decide) (by decide)).2.2.2.2.1⟩

/-- C8: handling an `error` event, in any state and for any error, makes no call on the
socket or on the timer API (no send, close, reconnect, timer creation or cancellation),
leaves the counter, the pending timers and the clock unchanged, and adds exactly one
console entry, which holds the error. -/
theorem error_handler_only_logs (s : State) (err : String) :
    step s (Event.error err) = error err s
    ∧ (error err s).log = s.log
    ∧ socketCalls (error err s) = socketCalls s
    ∧ (error err s).timers = s.timers
    ∧ (error err s).nextTimerId = s.nextTimerId
    ∧ (error err s).counts = s.counts
    ∧ (error err s).now = s.now
    ∧ (error err s).console = s.console ++ [ConsoleEntry.error ["❌ Error:", err]] :=
  ⟨rfl, rfl, rfl, rfl, rfl, rfl, rfl, rfl⟩

/-- C9: in every state of a run with one `open` event, a counter that exists equals the
number of MEDIA messages sent so far and the number of runs of the interval callback, and
is at most 100; the repeating timer is pending exactly while the counter is below 100, and
`clearInterval` and the STOP timeout have been called exactly once when the counter is 100
and never before; when no timer is pending any more, the callback has run exactly 100
times and the STOP timeout was scheduled exactly once; once the close timeout has fired
no timer is pending. -/
theorem count_tracks_media_sent (evs : List Event) (hopen : evs.count Event.open = 1) :
    (∀ c ∈ (run init evs).counts,
        c = mediaSent (run init evs) ∧ c ≤ 100 ∧ intervalRuns (run init evs) = c)
    ∧ (run init evs).counts.length ≤ 1
    ∧ (intervalPending (run init evs) = true ↔ ∃ c, (run init evs).counts = [c] ∧ c < 100)
    ∧ clears (run init evs) = (if (run init evs).counts = [100] then 1 else 0)
    ∧ stopSchedules (run init evs) = (if (run init evs).counts = [100] then 1 else 0)
    ∧ ((run init evs).timers = [] →
        mediaSent (run init evs) = 100 ∧ intervalRuns (run init evs) = 100
        ∧ clears (run init evs) = 1 ∧ stopSchedules (run init evs) = 1
        ∧ closeFired (run init evs) = true)
    ∧ (closeFired (run init evs) = true → (run init evs).timers = []) := by
  have h := core_run_oneOpen evs init rfl hopen
  have hi := inv_expected (turnsAfterOpen evs)
  rw [← h] at hi
  exact (inv_core _).1 hi

set_option maxRecDepth 100000 in
theorem count_tracks_media_sent_witness :
    (openThenTimers 50).count Event.open = 1 ∧ MediaInvariant (run init (openThenTimers 50)) :=
  ⟨by decide, count_tracks_media_sent (openThenTimers 50) (by decide)⟩

/-- C10: two runs that differ only in their `message` events (how many, with what
content, at which points) make the same calls on the socket at the same times, so the
strings sent and the point of the close call are the same; the `message` handler adds
one console entry and changes nothing else. -/
theorem sends_independent_of_messages (evs₁ evs₂ : List Event)
    (h : evs₁.filter (fun e => !e.isMessage) = evs₂.filter (fun e => !e.isMessage)) :
    sent (run init evs₁) = sent (run init evs₂)
    ∧ socketCalls (run init evs₁) = socketCalls (run init evs₂)
    ∧ (run init evs₁).log = (run init evs₂).log
    ∧ (run init evs₁).timers = (run init evs₂).timers
    ∧ (run init evs₁).counts = (run init evs₂).counts
    ∧ (run init evs₁).now = (run init evs₂).now
    ∧ (∀ (s : State) (data : String), message data s =
        { s with console := s.console ++ [ConsoleEntry.log ["📥 Received:", data]] }) := by
  have hc : (run init evs₁).core = (run init evs₂).core := by
    rw [← core_run_filter evs₁, ← core_run_filter evs₂, h]
  have hlog : (run init evs₁).log = (run init evs₂).log := by
    rw [← core_log, hc, core_log]
  refine ⟨?_, ?_, hlog, ?_, ?_, ?_, fun _ _ => rfl⟩
  · simp only [sent, hlog]
  · simp only [socketCalls, hlog]
  · rw [← core_timers, hc, core_timers]
  · rw [← core_counts, hc, core_counts]
  · rw [← core_now, hc, core_now]

set_option maxRecDepth 100000 in
theorem sends_independent_of_messages_witness :
    [Event.open, Event.message "hi", Event.timer].filter (fun e => !e.isMessage)
      = [Event.message "a", Event.open, Event.message "b", Event.timer].filter
          (fun e => !e.isMessage)
    ∧ sent (run init [Event.open, Event.message "hi", Event.timer])
      = sent (run init [Event.message "a", Event.open, Event.message "b", Event.timer]) :=
  ⟨by decide,
    (sends_independent_of_messages [Event.open, Event.message "hi", Event.timer]
      [Event.message "a", Event.open, Event.message "b", Event.timer] (by decide)).1⟩

end VobizTest
